import Mathlib

/-!
Verification development for the Office-SmartSuite repository.

The backend (`Backend/routes/dashboard.js`) keeps a single in-memory
`smartOfficeState` record, mutated only by the Express route handlers; the
frontend tabs (`AlertsTab`, `AccessSafetyTab`) poll the backend and the
ThingSpeak telemetry feed and merge both into their React component state.
The definitions below are a shallow embedding of those handlers and of the
poll-tick (`fetchData`) logic; time-dependent values (`Date.now()`, random
names, timestamps) become explicit parameters, `setTimeout` becomes an
explicit scheduled task value, and a JSON body field that may be absent or
carry a non-boolean value becomes the `BodyVal` type.
-/

namespace SmartOffice

/-- An entry of `smartOfficeState.alertHistory` (dashboard.js lines 20-24):
`{ id, timestamp, type, status }`. -/
structure AlertRecord where
  id : String
  timestamp : String
  type : String
  status : String
deriving DecidableEq, Repr

/-- An entry of `smartOfficeState.accessSafety.attendance`
(dashboard.js lines 29-33): `{ id, employeeId, name, time }`. -/
structure AttendanceRecord where
  id : String
  employeeId : String
  name : String
  time : String
deriving DecidableEq, Repr

/-- `smartOfficeState.smartLight` (dashboard.js lines 9-13). -/
structure SmartLight where
  autoMode : Bool
  lightOn : Bool
  ldrValue : Int
deriving DecidableEq, Repr

/-- `smartOfficeState.airQuality` (dashboard.js lines 14-17). -/
structure AirQuality where
  airQualityIndex : Int
  temperature : Int
deriving DecidableEq, Repr

/-- `smartOfficeState.accessSafety` (dashboard.js lines 26-34). -/
structure AccessSafety where
  gateOpen : Bool
  fireSystemOn : Bool
  attendance : List AttendanceRecord
deriving DecidableEq, Repr

/-- The whole mock device state `smartOfficeState` (dashboard.js lines 7-35). -/
structure SmartOfficeState where
  smartLight : SmartLight
  airQuality : AirQuality
  alertMode : Bool
  alertHistory : List AlertRecord
  accessSafety : AccessSafety
deriving DecidableEq, Repr

/-- The initial value of `smartOfficeState` (dashboard.js lines 7-35). -/
def initialSmartOfficeState : SmartOfficeState where
  smartLight := { autoMode := true, lightOn := false, ldrValue := 450 }
  airQuality := { airQualityIndex := 85, temperature := 24 }
  alertMode := true
  alertHistory :=
    [ { id := "1", timestamp := "2025-11-18 14:32:15", type := "Motion Detected", status := "Resolved" },
      { id := "2", timestamp := "2025-11-18 13:45:22", type := "Unauthorized Movement", status := "Resolved" },
      { id := "3", timestamp := "2025-11-18 12:18:09", type := "Motion Detected", status := "Resolved" } ]
  accessSafety :=
    { gateOpen := false
      fireSystemOn := true
      attendance :=
        [ { id := "1", employeeId := "A1234", name := "John Smith", time := "08:30 AM" },
          { id := "2", employeeId := "A2345", name := "Sarah Johnson", time := "08:45 AM" },
          { id := "3", employeeId := "A3456", name := "Mike Davis", time := "09:30 AM" } ] }

/-- A JSON request-body field, as seen by a `typeof x === 'boolean'` check:
either absent (`undefined`), a boolean, or present with some non-boolean
value. -/
inductive BodyVal where
  | missing
  | boolVal (b : Bool)
  | nonBool
deriving DecidableEq, Repr

/-- The JSON object returned by `GET /api/data/alerts`
(dashboard.js lines 110-118). -/
structure AlertsResponse where
  alertMode : Bool
  motionDetected : Bool
  alertHistory : List AlertRecord
deriving DecidableEq, Repr

/-- `GET /api/data/alerts` (dashboard.js lines 110-118): returns the live
`alertMode`, a hard-coded `motionDetected: false`, and the stored history. -/
def getAlerts (s : SmartOfficeState) : AlertsResponse where
  alertMode := s.alertMode || false
  motionDetected := false
  alertHistory := s.alertHistory

/-- `POST /api/data/alerts/toggle-mode` (dashboard.js lines 121-129):
a boolean body value updates `alertMode` and answers 200, anything else
answers 400 and leaves the state alone. The first component is the HTTP
status code. -/
def toggleAlertMode (v : BodyVal) (s : SmartOfficeState) : Nat × SmartOfficeState :=
  match v with
  | .boolVal b => (200, { s with alertMode := b })
  | _ => (400, s)

/-- `POST /api/data/access-safety/fire-system-toggle`
(dashboard.js lines 198-206): same validation pattern for
`accessSafety.fireSystemOn`. -/
def fireSystemToggle (v : BodyVal) (s : SmartOfficeState) : Nat × SmartOfficeState :=
  match v with
  | .boolVal b => (200, { s with accessSafety := { s.accessSafety with fireSystemOn := b } })
  | _ => (400, s)

/-- `POST /api/data/alerts/log-motion` (dashboard.js lines 132-147):
unshift a new alert built from `req.body.type || 'Motion Detected'` and
`req.body.status || 'Active'` (the `Date.now()` id and formatted timestamp
are the `nowId`/`nowTimestamp` parameters), then `pop` the oldest entry
when the history holds more than 20 records. -/
def logMotion (bodyType bodyStatus : Option String) (nowId nowTimestamp : String)
    (s : SmartOfficeState) : SmartOfficeState :=
  let newAlert : AlertRecord :=
    { id := nowId
      timestamp := nowTimestamp
      type := bodyType.getD "Motion Detected"
      status := bodyStatus.getD "Active" }
  let hist := newAlert :: s.alertHistory
  { s with alertHistory := if hist.length > 20 then hist.dropLast else hist }

/-- `POST /api/data/monitoring/light-control` (dashboard.js lines 66-102),
state mutation only (the `axios` call to the ESP hardware does not touch the
store): step 1 applies a boolean `autoMode`, step 2 applies a boolean
`lightOn` only when auto mode is off, step 3 forces
`lightOn = ldrValue < 500` whenever auto mode is on. -/
def lightControl (autoMode lightOn : BodyVal) (s : SmartOfficeState) : SmartOfficeState :=
  let sl := s.smartLight
  let sl := match autoMode with
    | .boolVal b => { sl with autoMode := b }
    | _ => sl
  let sl := match lightOn with
    | .boolVal b => if !sl.autoMode then { sl with lightOn := b } else sl
    | _ => sl
  let sl := if sl.autoMode then { sl with lightOn := decide (sl.ldrValue < 500) } else sl
  { s with smartLight := sl }

/-- A deferred state mutation scheduled with `setTimeout(fn, delayMs)`. -/
structure ScheduledTask where
  delayMs : Nat
  run : SmartOfficeState → SmartOfficeState

/-- The `setTimeout` callback of the RFID scan handler
(dashboard.js lines 176-178): close the gate on whatever the state is when
the 3000 ms delay elapses. -/
def gateCloseTask : ScheduledTask where
  delayMs := 3000
  run := fun s => { s with accessSafety := { s.accessSafety with gateOpen := false } }

/-- `POST /api/data/access-safety/rfid-scan` (dashboard.js lines 162-185):
unshift a synthesized attendance record (the random name/id and the
formatted time are parameters), open the gate, and schedule the 3-second
auto-close. Returns the immediate post-state and the scheduled task. -/
def rfidScan (nowId newId randomName time : String) (s : SmartOfficeState) :
    SmartOfficeState × ScheduledTask :=
  let newRecord : AttendanceRecord :=
    { id := nowId, employeeId := newId, name := randomName, time := time }
  let s1 := { s with accessSafety :=
    { s.accessSafety with
        attendance := newRecord :: s.accessSafety.attendance
        gateOpen := true } }
  (s1, gateCloseTask)

/-- `DATA_RECENCY_THRESHOLD_MS` of `AlertsTab` (part_000 line 16): the
constant is 3000 ms (its inline comment says "30 seconds"). -/
def DATA_RECENCY_THRESHOLD_MS : Int := 3000

/-- The effective boolean of a monitored signal (part_000 lines 73-82 and
the fire variant, part_001 lines 181-190): `isRecent` is
`(now - dataTimestamp) <= threshold` and the signal is on iff the parsed
field value is positive AND the sample is recent. The field value is a
`parseFloat` result, modelled as a rational. -/
def effectiveBool (rawValue : ℚ) (nowMs sampleMs thresholdMs : Int) : Bool :=
  decide (rawValue > 0) && decide (nowMs - sampleMs ≤ thresholdMs)

/-- Outcome of one ThingSpeak fetch for the intruder field: the request
failed (network error / non-2xx / malformed), the `feeds` array was empty,
or a sample with a parsed value and a `created_at` timestamp arrived. -/
inductive RemoteFeed where
  | failed
  | empty
  | sample (value : ℚ) (createdAtMs : Int)
deriving DecidableEq

/-- `motionDetectedFromChannel` after step 2 of `AlertsTab.fetchData`
(part_000 lines 42, 59-92): it starts `false`, stays `false` when the fetch
throws or returns no feed, and is the effective boolean otherwise. -/
def motionFromChannel (r : RemoteFeed) (nowMs : Int) : Bool :=
  match r with
  | .failed => false
  | .empty => false
  | .sample v ts => effectiveBool v nowMs ts DATA_RECENCY_THRESHOLD_MS

/-- The `AlertsData` React state of `AlertsTab` (part_000 lines 26-30). -/
structure AlertsData where
  alertMode : Bool
  motionDetected : Bool
  alertHistory : List AlertRecord
deriving DecidableEq, Repr

/-- Initial `useState` value of `AlertsTab` (part_000 lines 33-37). -/
def initialAlertsData : AlertsData where
  alertMode := false
  motionDetected := false
  alertHistory := []

/-- The new component state built by the `setData` callback in step 3 of
`AlertsTab.fetchData` (part_000 lines 104-110): `alertMode` and
`alertHistory` come from the local response fetched at the start of the
tick, `motionDetected` from the channel. -/
def alertsTick (localData : AlertsResponse) (motionFromCh : Bool) : AlertsData where
  alertMode := localData.alertMode
  motionDetected := motionFromCh
  alertHistory := localData.alertHistory

/-- The guard of the `log-motion` POST in step 3 of `AlertsTab.fetchData`
(part_000 lines 96-99):
`isCurrentlyAlerting && (!prev.motionDetected || prev.alertHistory[0]?.type !== 'Unauthorized Movement')`
where `isCurrentlyAlerting = motionDetectedFromChannel && localData.alertMode`;
on an empty previous history the optional-chaining comparison is
`undefined !== '...'`, i.e. true. -/
def shouldLogAlert (prev : AlertsData) (localData : AlertsResponse) (motionFromCh : Bool) : Bool :=
  let isCurrentlyAlerting := motionFromCh && localData.alertMode
  isCurrentlyAlerting &&
    (!prev.motionDetected ||
      !(decide (prev.alertHistory.head?.map AlertRecord.type = some "Unauthorized Movement")))

/-- One `AlertsTab.fetchData` tick seen from the component (part_000 lines
41-118): a failed local fetch returns early (component state untouched,
nothing logged, the remote feed is never consulted); otherwise the remote
effective boolean is computed, the new state is composed, and the second
component records whether the tick fired a `log-motion` POST. -/
def fetchDataStep (prev : AlertsData) (localResult : Option AlertsResponse)
    (remote : RemoteFeed) (nowMs : Int) : AlertsData × Bool :=
  match localResult with
  | none => (prev, false)
  | some localData =>
      let m := motionFromChannel remote nowMs
      (alertsTick localData m, shouldLogAlert prev localData m)

/-- One poll tick of the combined frontend-plus-backend system,
parameterised by the effective motion boolean of the tick
(`eff = motionFromChannel remote now`): the component fetches
`GET /alerts`, decides via `shouldLogAlert` whether to POST `log-motion`
(type `Unauthorized Movement`, status `Active`; `nowTs`/`nowId` stand for
the POST's server-side timestamp and id), and composes its next state.
The third component counts the `log-motion` appends so far. -/
def tickOnce (nowTs nowId : String) (eff : Bool)
    (st : AlertsData × SmartOfficeState × Nat) : AlertsData × SmartOfficeState × Nat :=
  let prev := st.1
  let server := st.2.1
  let localData := getAlerts server
  let doLog := shouldLogAlert prev localData eff
  let server2 :=
    if doLog then logMotion (some "Unauthorized Movement") (some "Active") nowId nowTs server
    else server
  (alertsTick localData eff, server2, st.2.2 + if doLog then 1 else 0)

/-- Four consecutive poll ticks with effective motion values
`[e1, e2, e3, e4]`, starting from component state `vm` and server state
`s`, with distinct ids for any records logged along the way. -/
def run4 (e1 e2 e3 e4 : Bool) (vm : AlertsData) (s : SmartOfficeState) :
    AlertsData × SmartOfficeState × Nat :=
  tickOnce "ts4" "id4" e4 (tickOnce "ts3" "id3" e3
    (tickOnce "ts2" "id2" e2 (tickOnce "ts1" "id1" e1 (vm, s, 0))))

/-- `n` successive RFID scans (the synthesized record contents do not
matter for the log-length question). -/
def scanN : Nat → SmartOfficeState → SmartOfficeState
  | 0, s => s
  | n + 1, s => scanN n (rfidScan "i" "e" "n" "t" s).1

/-- An error caught by the auth form handlers: `firebaseError.code` is
`none` when the thrown value carries no (truthy) `code` property. -/
structure AuthError where
  code : Option String
deriving DecidableEq

/-- The message chosen by `Login.handleSubmit`'s catch block
(part_001 lines 26-38). -/
def loginErrorMessage (err : AuthError) : String :=
  match err.code with
  | some code =>
      if code = "auth/invalid-email" then "Invalid email format."
      else if code = "auth/wrong-password" || code = "auth/user-not-found" then
        "Invalid email or password."
      else "Failed to log in. Please check your credentials."
  | none => "An unexpected error occurred."

/-- The message chosen by `SignUp.handleSubmit`'s catch block
(SignUp.tsx lines 34-48). -/
def signupErrorMessage (err : AuthError) : String :=
  match err.code with
  | some code =>
      if code = "auth/email-already-in-use" then "This email is already in use. Try logging in."
      else if code = "auth/invalid-email" then "Invalid email address format."
      else if code = "auth/weak-password" then
        "The password is too weak. Please use a stronger password."
      else "Failed to create account. Please check the details and try again."
  | none => "An unexpected error occurred."

/-- C1: for every raw field value `v` of a monitored boolean signal and
every sample age `a = now - capturedAt`, the effective boolean computed on
a poll tick is true iff `v > 0` and `a ≤ T` (the recency threshold); in
particular it is true at the boundary `a = T` whenever `v > 0`, and false
for every `a` strictly greater than `T`, so a stale sample is never
treated as active. -/
theorem effective_signal_recency (v : ℚ) (ts a T : Int) :
    (effectiveBool v (ts + a) ts T = true ↔ 0 < v ∧ a ≤ T)
    ∧ (0 < v → effectiveBool v (ts + T) ts T = true)
    ∧ (T < a → effectiveBool v (ts + a) ts T = false) := by
  refine ⟨?_, ?_, ?_⟩
  · simp [effectiveBool, add_sub_cancel_left]
  · intro hv
    simp [effectiveBool, add_sub_cancel_left, hv]
  · intro h
    simp [effectiveBool, add_sub_cancel_left, not_le.mpr h]

/-- Witness for `effective_signal_recency`: value 1, sample taken at 0,
threshold 30 — active at age 30, inactive at age 31. -/
theorem effective_signal_recency_witness :
    effectiveBool 1 (0 + 30) 0 30 = true ∧ effectiveBool 1 (0 + 31) 0 30 = false :=
  ⟨(effective_signal_recency 1 0 30 30).2.1 (by norm_num),
   (effective_signal_recency 1 0 31 30).2.2 (by norm_num)⟩

/-- C3: while the stored `autoMode` is true, a light-control command
carrying any requested `lightOn` boolean leaves the stored `lightOn`
exactly equal to `ldrValue < 500`; the manual request is rejected as a
no-op and the auto-mode threshold rule decides the light state. -/
theorem light_control_auto_override (b : Bool) (s : SmartOfficeState)
    (h : s.smartLight.autoMode = true) :
    (lightControl .missing (.boolVal b) s).smartLight.lightOn
      = decide (s.smartLight.ldrValue < 500) := by
  simp [lightControl, h]

/-- Witness for `light_control_auto_override` at the initial device state
(auto mode on, LDR 450). -/
theorem light_control_auto_override_witness :
    (lightControl .missing (.boolVal true) initialSmartOfficeState).smartLight.lightOn
      = decide (initialSmartOfficeState.smartLight.ldrValue < 500) :=
  light_control_auto_override true initialSmartOfficeState rfl

/-- C4: every `triggerScan` invocation opens the gate in the immediate
post-state, places exactly one new attendance record at the front of the
log, and schedules a deferred mutation that closes the gate after the
fixed 3000 ms delay. -/
theorem rfid_scan_contract (nowId newId nm t : String) (s : SmartOfficeState) :
    (rfidScan nowId newId nm t s).1.accessSafety.gateOpen = true
    ∧ (rfidScan nowId newId nm t s).1.accessSafety.attendance
        = { id := nowId, employeeId := newId, name := nm, time := t } :: s.accessSafety.attendance
    ∧ (rfidScan nowId newId nm t s).2.delayMs = 3000
    ∧ ∀ u : SmartOfficeState,
        ((rfidScan nowId newId nm t s).2.run u).accessSafety.gateOpen = false :=
  ⟨rfl, rfl, rfl, fun _ => rfl⟩

/-- C9: `GET /alerts` answers `motionDetected = false` in every reachable
state — the field is a constant of the handler, never derived from the
store. -/
theorem get_alerts_motion_constant (s : SmartOfficeState) :
    (getAlerts s).motionDetected = false := rfl

/-- C10: the alert-mode and fire-system toggle endpoints answer 200 and
update exactly the toggled field when the body value is a boolean, and
answer 400 leaving the entire device state unchanged when it is absent or
non-boolean. -/
theorem toggle_endpoints_validation (s : SmartOfficeState) (b : Bool) :
    toggleAlertMode (.boolVal b) s = (200, { s with alertMode := b })
    ∧ toggleAlertMode .missing s = (400, s)
    ∧ toggleAlertMode .nonBool s = (400, s)
    ∧ fireSystemToggle (.boolVal b) s
        = (200, { s with accessSafety := { s.accessSafety with fireSystemOn := b } })
    ∧ fireSystemToggle .missing s = (400, s)
    ∧ fireSystemToggle .nonBool s = (400, s) :=
  ⟨rfl, rfl, rfl, rfl, rfl, rfl⟩

/-- C6 counterexample: with effective motion true, alert mode on and the
shared local history empty, a tick and its identical repetition (same
local response, same remote sample) BOTH fire a `log-motion` append — the
second run appends a new EventRecord, refuting idempotence as claimed. -/
theorem tick_repeat_appends_cex :
    (fetchDataStep initialAlertsData
        (some { alertMode := true, motionDetected := false, alertHistory := [] })
        (.sample 1 0) 0).2 = true
    ∧ (fetchDataStep
        (fetchDataStep initialAlertsData
          (some { alertMode := true, motionDetected := false, alertHistory := [] })
          (.sample 1 0) 0).1
        (some { alertMode := true, motionDetected := false, alertHistory := [] })
        (.sample 1 0) 0).2 = true := by
  exact ⟨by decide, by decide⟩

/-- C6 amended: repeating an identical poll tick (same local response,
same remote sample) yields an unchanged component state, but the second
run fires another `log-motion` append exactly when the effective boolean
and the fetched `alertMode` hold and the head of the unchanged fetched
history is not of type "Unauthorized Movement"; only in the remaining
cases is the repetition append-free. -/
theorem tick_repeat_behavior (prev : AlertsData) (d : AlertsResponse)
    (r : RemoteFeed) (nowMs : Int) :
    (fetchDataStep (fetchDataStep prev (some d) r nowMs).1 (some d) r nowMs).1
      = (fetchDataStep prev (some d) r nowMs).1
    ∧ (fetchDataStep (fetchDataStep prev (some d) r nowMs).1 (some d) r nowMs).2
      = (motionFromChannel r nowMs && d.alertMode
          && !(decide (d.alertHistory.head?.map AlertRecord.type = some "Unauthorized Movement"))) := by
  constructor
  · rfl
  · cases h : motionFromChannel r nowMs <;>
      simp [fetchDataStep, shouldLogAlert, alertsTick, h]

/-- C7 counterexample: the remote feed carries a live motion sample whose
effective boolean is true, yet because the local fetch failed the tick
returns early with the previous component state (`motionDetected = false`)
— the remote-derived signal is not presented, refuting the symmetric half
of the claim. -/
theorem local_failure_blocks_remote_cex :
    motionFromChannel (.sample 1 0) 0 = true
    ∧ fetchDataStep { alertMode := true, motionDetected := false, alertHistory := [] }
        none (.sample 1 0) 0
      = ({ alertMode := true, motionDetected := false, alertHistory := [] }, false) := by
  exact ⟨by decide, rfl⟩

/-- C7 amended: a failed remote telemetry fetch degrades the motion signal
to false while the locally fetched `alertMode` and history are still
presented; a failed local fetch, by contrast, aborts the tick before the
remote result is consulted — the previous component state is kept
unchanged and nothing is logged, so the remote-derived signal is not
presented in that case. -/
theorem fetch_failure_isolation (prev : AlertsData) (d : AlertsResponse)
    (r : RemoteFeed) (nowMs : Int) :
    fetchDataStep prev (some d) .failed nowMs
      = ({ alertMode := d.alertMode, motionDetected := false, alertHistory := d.alertHistory },
          false)
    ∧ fetchDataStep prev none r nowMs = (prev, false) := by
  constructor
  · simp [fetchDataStep, motionFromChannel, alertsTick, shouldLogAlert]
  · rfl

/-- C8 counterexample: two non-credential auth failures produce different
user-facing messages — in the login form a coded unknown error and a
codeless error disagree, and the signup form's generic message is yet
another string — so "every other auth failure collapses to a single
generic try-again message" fails. -/
theorem auth_generic_not_single_cex :
    loginErrorMessage ⟨some "auth/too-many-requests"⟩ ≠ loginErrorMessage ⟨none⟩
    ∧ signupErrorMessage ⟨some "auth/too-many-requests"⟩
        ≠ loginErrorMessage ⟨some "auth/too-many-requests"⟩ := by
  exact ⟨by decide, by decide⟩

/-- C8 amended: each credential error kind has its own distinct message —
invalid email and wrong password (also covering unknown user) in the login
form; email-already-in-use, invalid email and weak password in the signup
form — and every other failure maps to a per-form generic message when it
carries an error code, and to "An unexpected error occurred." when it does
not; within each form all these messages are pairwise distinct. -/
theorem auth_error_message_map :
    (loginErrorMessage ⟨some "auth/invalid-email"⟩ = "Invalid email format."
      ∧ loginErrorMessage ⟨some "auth/wrong-password"⟩ = "Invalid email or password."
      ∧ loginErrorMessage ⟨some "auth/user-not-found"⟩ = "Invalid email or password."
      ∧ signupErrorMessage ⟨some "auth/email-already-in-use"⟩
          = "This email is already in use. Try logging in."
      ∧ signupErrorMessage ⟨some "auth/invalid-email"⟩ = "Invalid email address format."
      ∧ signupErrorMessage ⟨some "auth/weak-password"⟩
          = "The password is too weak. Please use a stronger password.")
    ∧ (∀ c, c ≠ "auth/invalid-email" → c ≠ "auth/wrong-password" → c ≠ "auth/user-not-found" →
        loginErrorMessage ⟨some c⟩ = "Failed to log in. Please check your credentials.")
    ∧ (∀ c, c ≠ "auth/email-already-in-use" → c ≠ "auth/invalid-email" →
        c ≠ "auth/weak-password" →
        signupErrorMessage ⟨some c⟩
          = "Failed to create account. Please check the details and try again.")
    ∧ loginErrorMessage ⟨none⟩ = "An unexpected error occurred."
    ∧ signupErrorMessage ⟨none⟩ = "An unexpected error occurred."
    ∧ ["Invalid email format.", "Invalid email or password.",
        "Failed to log in. Please check your credentials.",
        "An unexpected error occurred."].Pairwise (· ≠ ·)
    ∧ ["This email is already in use. Try logging in.", "Invalid email address format.",
        "The password is too weak. Please use a stronger password.",
        "Failed to create account. Please check the details and try again.",
        "An unexpected error occurred."].Pairwise (· ≠ ·) := by
  refine ⟨⟨by decide, by decide, by decide, by decide, by decide, by decide⟩,
    ?_, ?_, by decide, by decide, by decide, by decide⟩
  · intro c h1 h2 h3
    simp [loginErrorMessage, h1, h2, h3]
  · intro c h1 h2 h3
    simp [signupErrorMessage, h1, h2, h3]

/-- Witness for `auth_error_message_map`: an unhandled coded error falls to
the login form's generic message. -/
theorem auth_error_message_map_witness :
    loginErrorMessage ⟨some "auth/network-request-failed"⟩
      = "Failed to log in. Please check your credentials." :=
  auth_error_message_map.2.1 "auth/network-request-failed" (by decide) (by decide) (by decide)

/-- C5 counterexample: eighteen RFID scans from the shipped initial
backend state — a reachable sequence of event-creating operations — leave
the attendance log with 21 records, strictly beyond the capacity 20 at
which the motion log is trimmed: the scan path performs no trimming, so
the attendance log is not kept within the bounded length. -/
theorem attendance_log_unbounded_cex :
    (scanN 18 initialSmartOfficeState).accessSafety.attendance.length = 21
    ∧ 20 < (scanN 18 initialSmartOfficeState).accessSafety.attendance.length := by
  exact ⟨by decide, by decide⟩

/-- C5 amended: the motion-log operation places its new record at the
front and drops the oldest entry when the log would exceed 20 records, so
the alert log stays within 20 records whenever it starts within 20; the
RFID scan also places its record at the front but performs no trimming —
the attendance log grows by exactly one on every call, so only the alert
log is bounded. -/
theorem event_log_front_and_trim (bt bs : Option String) (nowId nowTs : String)
    (s : SmartOfficeState) (h : s.alertHistory.length ≤ 20) :
    (logMotion bt bs nowId nowTs s).alertHistory.length ≤ 20
    ∧ (logMotion bt bs nowId nowTs s).alertHistory.head?
        = some { id := nowId, timestamp := nowTs, type := bt.getD "Motion Detected",
                 status := bs.getD "Active" }
    ∧ ∀ i e nm t, (rfidScan i e nm t s).1.accessSafety.attendance.length
        = s.accessSafety.attendance.length + 1 := by
  refine ⟨?_, ?_, fun i e nm t => rfl⟩
  · simp only [logMotion]
    split
    · next hgt =>
        rw [List.length_dropLast, List.length_cons]
        omega
    · next hle =>
        rw [List.length_cons] at hle ⊢
        omega
  · have hhead : ∀ (a : AlertRecord) (l : List AlertRecord), l ≠ [] →
        ((a :: l).dropLast).head? = some a := by
      intro a l hl
      cases l with
      | nil => exact absurd rfl hl
      | cons x xs => simp [List.dropLast_cons₂]
    by_cases hc : (({ id := nowId, timestamp := nowTs, type := bt.getD "Motion Detected",
                      status := bs.getD "Active" } : AlertRecord) :: s.alertHistory).length > 20
    · have hne : s.alertHistory ≠ [] := by
        intro hnil
        rw [hnil] at hc
        simp at hc
      simp only [logMotion, if_pos hc]
      exact hhead _ _ hne
    · simp only [logMotion, if_neg hc]
      rfl

/-- Witness for `event_log_front_and_trim` at the initial backend state
(history of length 3). -/
theorem event_log_front_and_trim_witness :
    (logMotion none none "id" "ts" initialSmartOfficeState).alertHistory.length ≤ 20 :=
  (event_log_front_and_trim none none "id" "ts" initialSmartOfficeState (by decide)).1

/-- When the history holds at most 19 records, `log-motion` is a plain
front insertion (the trim branch is not taken). -/
theorem logMotion_no_trim (bt bs : Option String) (nowId nowTs : String)
    (s : SmartOfficeState) (hlen : s.alertHistory.length ≤ 19) :
    logMotion bt bs nowId nowTs s
      = { s with alertHistory :=
            { id := nowId, timestamp := nowTs, type := bt.getD "Motion Detected",
              status := bs.getD "Active" } :: s.alertHistory } := by
  have hc : ¬((({ id := nowId, timestamp := nowTs, type := bt.getD "Motion Detected",
                  status := bs.getD "Active" } : AlertRecord) :: s.alertHistory).length > 20) := by
    simp only [List.length_cons]
    omega
  simp only [logMotion, if_neg hc]

/-- A tick whose effective motion boolean is false never logs: the server
state and the append count are unchanged. -/
theorem tickOnce_false (ts id : String) (vm : AlertsData) (s : SmartOfficeState) (n : Nat) :
    tickOnce ts id false (vm, s, n) = (alertsTick (getAlerts s) false, s, n) := by
  simp [tickOnce, shouldLogAlert]

/-- A tick whose effective motion boolean is true logs one "Unauthorized
Movement"/"Active" record whenever alert mode is on and the previous
component state either saw no motion or has a history head of a different
type. -/
theorem tickOnce_true_append (ts id : String) (vm : AlertsData) (s : SmartOfficeState) (n : Nat)
    (hm : s.alertMode = true)
    (hprev : vm.motionDetected = false
      ∨ vm.alertHistory.head?.map AlertRecord.type ≠ some "Unauthorized Movement")
    (hlen : s.alertHistory.length ≤ 19) :
    tickOnce ts id true (vm, s, n)
      = (alertsTick (getAlerts s) true,
         { s with alertHistory :=
            { id := id, timestamp := ts, type := "Unauthorized Movement", status := "Active" }
              :: s.alertHistory },
         n + 1) := by
  have hlog : shouldLogAlert vm (getAlerts s) true = true := by
    rcases hprev with h | h
    · simp [shouldLogAlert, getAlerts, hm, h]
    · simp [shouldLogAlert, getAlerts, hm, h]
  simp [tickOnce, hlog, logMotion_no_trim _ _ _ _ _ hlen]

/-- C2 counterexample: from the shipped initial backend state (alert mode
on, history head of type "Motion Detected"), the tick sequence with
effective motion `[false, true, true, false]` fires TWO `log-motion`
appends — one on the false-to-true transition and a second on the repeated
true, because the previous tick's component state does not yet contain the
first append — and no record is ever mutated to "Resolved": both appended
records still carry status "Active" in the final server state and the
original records are untouched. -/
theorem motion_edge_double_append_cex :
    (run4 false true true false initialAlertsData initialSmartOfficeState).2.2 = 2
    ∧ (run4 false true true false initialAlertsData initialSmartOfficeState).2.1.alertHistory
      = { id := "id3", timestamp := "ts3", type := "Unauthorized Movement", status := "Active" }
        :: { id := "id2", timestamp := "ts2", type := "Unauthorized Movement", status := "Active" }
        :: initialSmartOfficeState.alertHistory := by
  exact ⟨by decide, by decide⟩

/-- C2 amended: for every starting component state and every server state
with alert mode on whose history head is not of type "Unauthorized
Movement" and holds at most 18 records, the tick sequence with effective
motion `[false, true, true, false]` appends exactly TWO records with
status "Active" — one on the false-to-true transition and one on the
repeated true, because the previous tick's component state does not yet
contain the first append — and performs no status mutation: the final
history is the two appended "Active" records in front of the untouched
original history, and nothing is ever set to "Resolved". -/
theorem motion_edge_run_behavior (vm : AlertsData) (s : SmartOfficeState)
    (h1 : s.alertMode = true)
    (h2 : s.alertHistory.head?.map AlertRecord.type ≠ some "Unauthorized Movement")
    (h3 : s.alertHistory.length ≤ 18) :
    (run4 false true true false vm s).2.2 = 2
    ∧ (run4 false true true false vm s).2.1.alertHistory
      = { id := "id3", timestamp := "ts3", type := "Unauthorized Movement", status := "Active" }
        :: { id := "id2", timestamp := "ts2", type := "Unauthorized Movement", status := "Active" }
        :: s.alertHistory := by
  have h19 : s.alertHistory.length ≤ 19 := by omega
  have e1 := tickOnce_false "ts1" "id1" vm s 0
  have e2 := tickOnce_true_append "ts2" "id2" (alertsTick (getAlerts s) false) s 0
    h1 (Or.inl rfl) h19
  have e3 := tickOnce_true_append "ts3" "id3" (alertsTick (getAlerts s) true)
    { s with alertHistory :=
        { id := "id2", timestamp := "ts2", type := "Unauthorized Movement", status := "Active" }
          :: s.alertHistory }
    (0 + 1) h1 (Or.inr h2) (by show s.alertHistory.length + 1 ≤ 19; omega)
  have hrun : run4 false true true false vm s
      = tickOnce "ts4" "id4" false (tickOnce "ts3" "id3" true (tickOnce "ts2" "id2" true
          (tickOnce "ts1" "id1" false (vm, s, 0)))) := rfl
  rw [hrun, e1, e2, e3, tickOnce_false]
  exact ⟨rfl, rfl⟩

/-- Witness for `motion_edge_run_behavior` at the shipped initial states. -/
theorem motion_edge_run_behavior_witness :
    (run4 false true true false initialAlertsData initialSmartOfficeState).2.2 = 2 :=
  (motion_edge_run_behavior initialAlertsData initialSmartOfficeState rfl
    (by decide) (by decide)).1

end SmartOffice
